import Mathlib

/-!
Verification of the go-shutil library (shutil.go) against its specification.

The Go code is shallowly embedded: the filesystem is a finite association
list from absolute paths (component lists) to nodes, and every Go function
that performs I/O becomes a pure function threading this filesystem state.
Machine-level details that the library never observes (devices, inodes,
permissions enforcement, umask) are not modelled; symbolic-link targets are
modelled as absolute paths, and symlink resolution is performed on the final
path component with a chain-length budget of 40 (the Linux ELOOP limit).
A filesystem carries a `symlinksSupported` flag: creating a symlink on a
filesystem that does not support them (e.g. vfat) fails, which models the
platform condition mentioned in CopyTree's own documentation.

Go's `error` results become the `Err` inductive; a run-time panic (nil
dereference) is a distinguished `Outcome.panic`, separate from any returned
error.
-/

namespace GoShutil

abbrev Path := List String

/-- A filesystem node, as observed through Lstat: the classifications the
library distinguishes (regular file, directory, symlink, named pipe).
A regular file carries both its byte content and its stat size separately:
`stat` reports `size` while reading streams `content` (on POSIX the two can
disagree, e.g. procfs or a concurrently modified file, which is exactly what
CopyFile's post-copy size check is for). -/
inductive Node where
  | file (content : List Nat) (size : Nat) (mode : Nat)
  | dir (mode : Nat)
  | symlink (target : Path)
  | pipe (mode : Nat)
deriving DecidableEq, Repr

def Node.isDir : Node → Bool
  | .dir _ => true
  | _ => false

/-- `IsSymlink` from shutil.go: based on the entry's own mode bits. -/
def IsSymlink : Node → Bool
  | .symlink _ => true
  | _ => false

/-- `specialfile` from shutil.go: true iff the node is a named pipe. -/
def specialfile : Node → Bool
  | .pipe _ => true
  | _ => false

def Node.isPipe : Node → Bool
  | .pipe _ => true
  | _ => false

/-- `FileInfo.Mode()` restricted to the permission bits the library copies.
Symlink modes are never read by the library on the resolved paths it uses. -/
def Node.mode : Node → Nat
  | .file _ _ m => m
  | .dir m => m
  | .pipe m => m
  | .symlink _ => 0

/-- `FileInfo.Size()`. -/
def Node.size : Node → Nat
  | .file _ s _ => s
  | _ => 0

def Node.withMode : Node → Nat → Node
  | .file c s _, m => .file c s m
  | .dir _, m => .dir m
  | .pipe _, m => .pipe m
  | .symlink t, _ => .symlink t

/-- The filesystem: an association list from absolute paths to nodes, plus
a flag saying whether the filesystem supports creating symbolic links. -/
structure FS where
  entries : List (Path × Node)
  symlinksSupported : Bool
deriving DecidableEq, Repr

/-- The error taxonomy of shutil.go, plus the OS-level errors the library
propagates. `notExist` is the only error for which os.IsNotExist is true. -/
inductive Err where
  | sameFile (src dst : Path)
  | specialFile (p : Path)
  | notADirectory (p : Path)
  | alreadyExists (p : Path)
  | moveOntoSelf (src dst : Path)
  | notExist (p : Path)
  | ioError (p : Path)
  | sizeMismatch (p : Path) (copied expected : Nat)
  | outOfFuel
deriving DecidableEq, Repr

/-- The result of a Go call: a returned value with the filesystem state
after the call, a returned error with the state, or a run-time panic. -/
inductive Outcome (α : Type) where
  | ok (a : α) (fs : FS)
  | err (e : Err) (fs : FS)
  | panic
deriving DecidableEq, Repr

def Outcome.isOk {α : Type} : Outcome α → Bool
  | .ok _ _ => true
  | _ => false

def Outcome.fsAfter {α : Type} : Outcome α → Option FS
  | .ok _ fs => some fs
  | .err _ fs => some fs
  | .panic => none

/-- Association-list lookup, first match wins. -/
def lookupEntry : List (Path × Node) → Path → Option Node
  | [], _ => none
  | e :: rest, p => if e.1 = p then some e.2 else lookupEntry rest p

def removeKey : List (Path × Node) → Path → List (Path × Node)
  | [], _ => []
  | e :: rest, p => if e.1 = p then removeKey rest p else e :: removeKey rest p

def insertEntry (fs : FS) (p : Path) (n : Node) : FS :=
  { fs with entries := (p, n) :: removeKey fs.entries p }

/-- `os.Lstat`: the entry itself, not following a final symlink. -/
def lstat (fs : FS) (p : Path) : Option Node :=
  lookupEntry fs.entries p

/-- `os.Readlink`. -/
def readlink (fs : FS) (p : Path) : Option Path :=
  match lstat fs p with
  | some (.symlink t) => some t
  | _ => none

/-- Follow the symlink chain at the final component, with the usual
40-link budget; the resulting path holds a non-symlink node. -/
def resolveAux : Nat → FS → Path → Option Path
  | 0, _, _ => none
  | n + 1, fs, p =>
    match lstat fs p with
    | some (.symlink t) => resolveAux n fs t
    | some _ => some p
    | none => none

def resolve (fs : FS) (p : Path) : Option Path :=
  resolveAux 40 fs p

/-- `os.Stat`: the node the path resolves to after following symlinks. -/
def stat (fs : FS) (p : Path) : Option Node :=
  match resolve fs p with
  | some q => lstat fs q
  | none => none

/-- `samefile` from shutil.go: stat both, errors ignored; os.SameFile of
two nil FileInfos is false, so any failure yields false. In this model two
paths denote the same file iff they resolve to the same path. -/
def samefile (fs : FS) (src dst : Path) : Bool :=
  match resolve fs src, resolve fs dst with
  | some x, some y => x == y
  | _, _ => false

/-- `stringInSlice` from shutil.go. -/
def stringInSlice (a : String) : List String → Bool
  | [] => false
  | b :: rest => if b == a then true else stringInSlice a rest

def childName (p q : Path) : Option String :=
  if p.isPrefixOf q ∧ q.length = p.length + 1 then (q.drop p.length).head? else none

/-- Lexicographic order on character lists (the byte order `ReadDir`
sorts file names by). -/
def charListLt : List Char → List Char → Bool
  | [], [] => false
  | [], _ :: _ => true
  | _ :: _, [] => false
  | a :: as, b :: bs =>
    if a.toNat < b.toNat then true
    else if b.toNat < a.toNat then false
    else charListLt as bs

def strLt (a b : String) : Bool := charListLt a.data b.data

def insertSorted (x : String × Node) : List (String × Node) → List (String × Node)
  | [] => [x]
  | y :: ys => if strLt x.1 y.1 then x :: y :: ys else y :: insertSorted x ys

def sortPairs : List (String × Node) → List (String × Node)
  | [] => []
  | x :: xs => insertSorted x (sortPairs xs)

/-- The immediate children of a directory entry, by Lstat, sorted by name
(as `ioutil.ReadDir` returns them). -/
def childEntries (fs : FS) (p : Path) : List (String × Node) :=
  sortPairs (fs.entries.filterMap fun e => (childName p e.1).map fun nm => (nm, e.2))

/-- `ioutil.ReadDir`: resolves the path, then lists the children sorted by
name. (The library only calls this after checking the path is a directory.) -/
def readDir (fs : FS) (p : Path) : List (String × Node) :=
  match resolve fs p with
  | some q => childEntries fs q
  | none => []

/-- Whether the (strict) parent of `p` resolves to a directory; OS calls
that create an entry at `p` require this. -/
def parentIsDir (fs : FS) (p : Path) : Bool :=
  !p.isEmpty &&
    match stat fs p.dropLast with
    | some n => n.isDir
    | none => false

/-- `os.Symlink target p`: creates a symlink at `p` whose stored target is
the `target` argument verbatim. Fails on filesystems without symlink
support, if anything already exists at `p`, or if p's parent is missing. -/
def symlinkCreate (fs : FS) (target p : Path) : Outcome Unit :=
  if fs.symlinksSupported = false then .err (.ioError p) fs
  else
    match lstat fs p with
    | some _ => .err (.ioError p) fs
    | none =>
      if parentIsDir fs p then .ok () (insertEntry fs p (.symlink target))
      else .err (.notExist p) fs

/-- `os.Chmod`: follows symlinks, sets the mode of the referenced node. -/
def chmod (fs : FS) (p : Path) (m : Nat) : Outcome Unit :=
  match resolve fs p with
  | none => .err (.notExist p) fs
  | some q =>
    match lstat fs q with
    | some n => .ok () (insertEntry fs q (n.withMode m))
    | none => .err (.notExist p) fs

/-- One step of `os.MkdirAll`: ensure the path is a directory, creating it
if nothing is there (mkdir fails with EEXIST on a leftover lstat entry such
as a dangling symlink, and with ENOTDIR if the path stats to a non-dir). -/
def mkdirStep (fs : FS) (p : Path) (m : Nat) : Outcome Unit :=
  match stat fs p with
  | some n => if n.isDir then .ok () fs else .err (.notADirectory p) fs
  | none =>
    match lstat fs p with
    | some _ => .err (.ioError p) fs
    | none => .ok () (insertEntry fs p (.dir m))

def mkdirAllAux (m : Nat) : FS → Path → Path → Outcome Unit
  | fs, _, [] => .ok () fs
  | fs, pre, c :: rest =>
    match mkdirStep fs (pre ++ [c]) m with
    | .err e fs' => .err e fs'
    | .panic => .panic
    | .ok _ fs' => mkdirAllAux m fs' (pre ++ [c]) rest

/-- `os.MkdirAll`: make the directory and any missing parents, walking the
path from the root (Go recurses on the parent; the outcomes coincide). -/
def mkdirAll (fs : FS) (p : Path) (m : Nat) : Outcome Unit :=
  mkdirAllAux m fs [] p

/-- Re-key all entries under `src` to live under `dst`, dropping whatever
was at `dst` (the entry being overwritten by the rename). -/
def renameEntries (ents : List (Path × Node)) (src dst : Path) : List (Path × Node) :=
  ents.filterMap fun e =>
    if src.isPrefixOf e.1 then some (dst ++ e.1.drop src.length, e.2)
    else if dst.isPrefixOf e.1 then none
    else some e

/-- `os.Rename`, POSIX semantics on one volume: moves the entry (and, for a
directory, its subtree). Fails if src is missing, if dst lies inside src,
if a directory would overwrite a non-directory or non-empty directory, if a
non-directory would overwrite a directory, or if dst's parent is missing.
(Cross-device failure is not modelled; the claims exercised here reach the
fallback paths through the path-shape failures above.) -/
def rename (fs : FS) (src dst : Path) : Outcome Unit :=
  match lstat fs src with
  | none => .err (.notExist src) fs
  | some srcN =>
    if src == dst then .ok () fs
    else if src.isPrefixOf dst then .err (.ioError dst) fs
    else
      match lstat fs dst with
      | some dstN =>
        if srcN.isDir then
          if dstN.isDir then
            if (childEntries fs dst).isEmpty then
              .ok () { fs with entries := renameEntries fs.entries src dst }
            else .err (.ioError dst) fs
          else .err (.ioError dst) fs
        else
          if dstN.isDir then .err (.ioError dst) fs
          else .ok () { fs with entries := renameEntries fs.entries src dst }
      | none =>
        if parentIsDir fs dst then
          .ok () { fs with entries := renameEntries fs.entries src dst }
        else .err (.notExist dst) fs

/-- `os.Remove`: removes a file, symlink, or empty directory. -/
def remove (fs : FS) (p : Path) : Outcome Unit :=
  match lstat fs p with
  | none => .err (.notExist p) fs
  | some n =>
    if n.isDir && !(childEntries fs p).isEmpty then .err (.ioError p) fs
    else .ok () { fs with entries := removeKey fs.entries p }

/-- `os.RemoveAll`: removes the entry and everything under it; no error if
the path is already gone (permission failures are not modelled). -/
def removeAll (fs : FS) (p : Path) : FS :=
  { fs with entries := fs.entries.filter fun e => !(p.isPrefixOf e.1) }

/-- `isDirectory` from shutil.go. -/
def isDirectory (fs : FS) (p : Path) : Except Err Bool :=
  match stat fs p with
  | none => .error (.notExist p)
  | some n => .ok n.isDir

/-- `path.Base` for the non-empty absolute component paths used here
(`path.Base "/"` is `"/"`). -/
def baseName (p : Path) : String :=
  match p.getLast? with
  | some s => s
  | none => "/"

/-- Render a component path as the Go string it denotes ("/a/b"). -/
def pathToString (p : Path) : String :=
  "/" ++ String.intercalate "/" p

/-- `strings.HasPrefix`, character-wise over the string's data. -/
def strHasPrefix (s pre : String) : Bool :=
  pre.data.isPrefixOf s.data

/-- `strings.HasSuffix`, character-wise over the string's data. -/
def strHasSuffix (s suffix : String) : Bool :=
  suffix.data.isSuffixOf s.data

/-- `destinsrc` from shutil.go, over the path strings; `abs` stands for
`filepath.Abs`, which is the identity on clean absolute paths (`Abs` only
joins the working directory and runs `Clean`). The second suffix guard
tests `src` — already terminated by the first guard — rather than `dst`,
exactly as the Go source does. -/
def destinsrc (abs : String → String) (src dst : String) : Bool :=
  let sep := "/"
  let src1 := abs src
  let dst1 := abs dst
  let src2 := if !strHasSuffix src1 sep then src1 ++ sep else src1
  let dst2 := if !strHasSuffix src2 sep then dst1 ++ sep else dst1
  strHasPrefix dst2 src2

/-- `os.Open` + reading the stream: the bytes the source path yields. -/
def readFileContent (fs : FS) (p : Path) : Except Err (List Nat) :=
  match stat fs p with
  | some (.file c _ _) => .ok c
  | some _ => .error (.ioError p)
  | none => .error (.notExist p)

/-- Where a write through `os.Create p` lands: follow any symlink chain at
the final component (Create writes through symlinks), 40-link budget. -/
def writeTargetAux : Nat → FS → Path → Option Path
  | 0, _, _ => none
  | n + 1, fs, p =>
    match lstat fs p with
    | some (.symlink t) => writeTargetAux n fs t
    | _ => some p

def writeTarget (fs : FS) (p : Path) : Option Path :=
  writeTargetAux 40 fs p

/-- `os.Create dst` followed by writing `content`: creates or truncates the
(resolved) destination as a regular file holding exactly `content`. Fails
if the destination is a directory or its parent is missing. A freshly
written file's stat size equals its content length. -/
def writeFile (fs : FS) (p : Path) (content : List Nat) : Outcome Unit :=
  match writeTarget fs p with
  | none => .err (.ioError p) fs
  | some q =>
    match lstat fs q with
    | some (.dir _) => .err (.ioError p) fs
    | _ =>
      if parentIsDir fs q then
        .ok () (insertEntry fs q (.file content content.length 438))
      else .err (.notExist p) fs

/-- The stream-copy tail of `CopyFile` (os.Open, os.Create, io.Copy, and
the post-copy size check against the pre-copy `srcStat.Size()`). -/
def copyFileData (fs : FS) (src dst : Path) (srcStat : Node) : Outcome Unit :=
  match readFileContent fs src with
  | .error e => .err e fs
  | .ok content =>
    match writeFile fs dst content with
    | .err e fs' => .err e fs'
    | .panic => .panic
    | .ok _ fs' =>
      if content.length = srcStat.size then .ok () fs'
      else .err (.sizeMismatch src content.length srcStat.size) fs'

/-- The symlink handling of `CopyFile` after the same-file and special-file
checks: without followSymlinks a symlink source is re-created as a symlink
at dst whose target is the original `src` argument; with followSymlinks the
link is read once and the result re-stat'd as the new source. -/
def copyFileLink (fs : FS) (src dst : Path) (followSymlinks : Bool)
    (srcStat : Node) : Outcome Unit :=
  if !followSymlinks && IsSymlink srcStat then symlinkCreate fs src dst
  else if IsSymlink srcStat then
    match readlink fs src with
    | none => .err (.ioError src) fs
    | some target =>
      match stat fs target with
      | none => .err (.notExist target) fs
      | some st2 => copyFileData fs target dst st2
  else copyFileData fs src dst srcStat

/-- `CopyFile` from shutil.go. -/
def CopyFile (fs : FS) (src dst : Path) (followSymlinks : Bool) : Outcome Unit :=
  if samefile fs src dst then .err (.sameFile src dst) fs
  else
    match lstat fs src with
    | none => .err (.notExist src) fs
    | some srcStat =>
      if specialfile srcStat then .err (.specialFile src) fs
      else
        match stat fs dst with
        | some dstStat =>
          if specialfile dstStat then .err (.specialFile dst) fs
          else copyFileLink fs src dst followSymlinks srcStat
        | none => copyFileLink fs src dst followSymlinks srcStat

/-- `CopyMode` from shutil.go. When the both-symlinks no-op branch is not
taken, the code re-stats src discarding the error and immediately calls
`srcStat.Mode()`; if that stat failed the FileInfo is nil and the call
panics, which the model renders as `Outcome.panic`. -/
def CopyMode (fs : FS) (src dst : Path) (followSymlinks : Bool) : Outcome Unit :=
  match lstat fs src with
  | none => .err (.notExist src) fs
  | some srcStat =>
    match lstat fs dst with
    | none => .err (.notExist dst) fs
    | some dstStat =>
      if !followSymlinks && IsSymlink srcStat && IsSymlink dstStat then .ok () fs
      else
        match stat fs src with
        | none => .panic
        | some real => chmod fs dst real.mode

/-- `Copy` from shutil.go: redirect into an existing directory destination,
then CopyFile followed by CopyMode, returning the effective destination. -/
def Copy (fs : FS) (src dst : Path) (followSymlinks : Bool) : Outcome Path :=
  let dst' :=
    match stat fs dst with
    | some n => if n.isDir then dst ++ [baseName src] else dst
    | none => dst
  match CopyFile fs src dst' followSymlinks with
  | .err e fs' => .err e fs'
  | .panic => .panic
  | .ok _ fs' =>
    match CopyMode fs' src dst' followSymlinks with
    | .err e fs'' => .err e fs''
    | .panic => .panic
    | .ok _ fs'' => .ok dst' fs''

abbrev CopyFunc := FS → Path → Path → Bool → Outcome Path
abbrev IgnoreFunc := Path → List (String × Node) → List String

structure CopyTreeOptions where
  Symlinks : Bool
  IgnoreDanglingSymlinks : Bool
  CopyFunction : CopyFunc
  Ignore : Option IgnoreFunc

/-- The options CopyTree substitutes for a nil pointer. -/
def defaultCopyTreeOptions : CopyTreeOptions :=
  { Symlinks := false, IgnoreDanglingSymlinks := false,
    CopyFunction := Copy, Ignore := none }

/-- The per-entry body of CopyTree's loop; `recurse` is the recursive
CopyTree call made for directory entries. Note that the error of
`os.Symlink(linkTo, dstPath)` in the Symlinks branch is discarded by the Go
code, and that in the non-Symlinks branch the copy function receives the
symlink path `srcPath` itself (with followSymlinks=false), not the target. -/
def copyTreeEntry (recurse : FS → Path → Path → Outcome Unit)
    (opts : CopyTreeOptions) (src dst : Path) (fs : FS) (name : String) :
    Outcome Unit :=
  let srcPath := src ++ [name]
  let dstPath := dst ++ [name]
  match lstat fs srcPath with
  | none => .err (.notExist srcPath) fs
  | some entryFileInfo =>
    if IsSymlink entryFileInfo then
      match readlink fs srcPath with
      | none => .err (.ioError srcPath) fs
      | some linkTo =>
        if opts.Symlinks then
          match symlinkCreate fs linkTo dstPath with
          | .ok _ fs' => .ok () fs'
          | .err _ fs' => .ok () fs'
          | .panic => .panic
        else
          if (stat fs linkTo).isNone && opts.IgnoreDanglingSymlinks then .ok () fs
          else
            match opts.CopyFunction fs srcPath dstPath false with
            | .err e fs' => .err e fs'
            | .panic => .panic
            | .ok _ fs' => .ok () fs'
    else if entryFileInfo.isDir then recurse fs srcPath dstPath
    else
      match opts.CopyFunction fs srcPath dstPath false with
      | .err e fs' => .err e fs'
      | .panic => .panic
      | .ok _ fs' => .ok () fs'

/-- CopyTree's loop over the listed entry names: skip ignored names, run
the per-entry body, and return its error as soon as one occurs. -/
def copyTreeEntries (handle : FS → String → Outcome Unit)
    (ignoredNames : List String) : FS → List String → Outcome Unit
  | fs, [] => .ok () fs
  | fs, name :: rest =>
    if stringInSlice name ignoredNames then
      copyTreeEntries handle ignoredNames fs rest
    else
      match handle fs name with
      | .err e fs' => .err e fs'
      | .panic => .panic
      | .ok _ fs' => copyTreeEntries handle ignoredNames fs' rest

/-- `CopyTree` from shutil.go. `fuel` bounds the recursion depth (the Go
code recurses without bound; exhausting the bound stands for the stack
overflow an unboundedly nested run would hit). The nil-options default is
`defaultCopyTreeOptions`. -/
def CopyTree : Nat → CopyTreeOptions → FS → Path → Path → Outcome Unit
  | 0, _, fs, _, _ => .err .outOfFuel fs
  | fuel + 1, options, fs, src, dst =>
    match stat fs src with
    | none => .err (.notExist src) fs
    | some srcFileInfo =>
      if !srcFileInfo.isDir then .err (.notADirectory src) fs
      else
        match stat fs dst with
        | some _ => .err (.alreadyExists dst) fs
        | none =>
          let entries := readDir fs src
          match mkdirAll fs dst srcFileInfo.mode with
          | .err e fs' => .err e fs'
          | .panic => .panic
          | .ok _ fs' =>
            let ignoredNames :=
              match options.Ignore with
              | some f => f src entries
              | none => []
            copyTreeEntries (copyTreeEntry (CopyTree fuel options) options src dst)
              ignoredNames fs' (entries.map Prod.fst)

structure MoveOptions where
  CopyFunction : CopyFunc

def defaultMoveOptions : MoveOptions :=
  { CopyFunction := Copy }

/-- The tree-copy options Move hardcodes in its directory fallback. -/
def moveTreeOptions : CopyTreeOptions :=
  { Symlinks := true, IgnoreDanglingSymlinks := false,
    CopyFunction := Copy, Ignore := none }

/-- Move's path after the rename attempt fails: symlink re-creation, the
directory fallback (where the Go code discards the results of both
CopyTree and os.RemoveAll), or copy-then-remove for a regular file. -/
def moveFallback (fuel : Nat) (fs : FS) (src dst realDst : Path)
    (options : MoveOptions) : Outcome Path :=
  match rename fs src realDst with
  | .ok _ fs' => .ok realDst fs'
  | .panic => .panic
  | .err _ fsr =>
    match lstat fsr src with
    | none => .err (.notExist src) fsr
    | some srcStat =>
      if IsSymlink srcStat then
        match readlink fsr src with
        | none => .err (.ioError src) fsr
        | some linkto =>
          match symlinkCreate fsr linkto realDst with
          | .err e fs' => .err e fs'
          | .panic => .panic
          | .ok _ fs' =>
            match remove fs' src with
            | .err e fs'' => .err e fs''
            | .panic => .panic
            | .ok _ fs'' => .ok realDst fs''
      else
        let isSrcDir :=
          match isDirectory fsr src with
          | .ok b => b
          | .error _ => false
        if isSrcDir then
          if destinsrc id (pathToString src) (pathToString dst) then
            .err (.moveOntoSelf src dst) fsr
          else
            match CopyTree fuel moveTreeOptions fsr src realDst with
            | .panic => .panic
            | .ok _ fs1 => .ok realDst (removeAll fs1 src)
            | .err _ fs1 => .ok realDst (removeAll fs1 src)
        else
          match options.CopyFunction fsr src realDst true with
          | .err e fs' => .err e fs'
          | .panic => .panic
          | .ok _ fs' =>
            match remove fs' src with
            | .err e fs'' => .err e fs''
            | .panic => .panic
            | .ok _ fs'' => .ok realDst fs''

/-- `Move` from shutil.go. `fuel` is passed to the CopyTree fallback.
`filepath.Abs` inside destinsrc is the identity on the clean absolute
strings `pathToString` produces, so it is instantiated with `id`. -/
def Move (fuel : Nat) (fs : FS) (src dst : Path) (options : MoveOptions) :
    Outcome Path :=
  let isDirDst :=
    match isDirectory fs dst with
    | .ok b => b
    | .error _ => false
  if isDirDst then
    if samefile fs src dst then
      match rename fs src dst with
      | .ok _ fs' => .ok dst fs'
      | .err e fs' => .err e fs'
      | .panic => .panic
    else
      let realDst := dst ++ [baseName src]
      match stat fs realDst with
      | some _ => .err (.alreadyExists dst) fs
      | none => moveFallback fuel fs src dst realDst options
  else moveFallback fuel fs src dst dst options

/-- The content a path reads as a regular file, if it is one. -/
def readFile? (fs : FS) (p : Path) : Option (List Nat) :=
  match stat fs p with
  | some (.file c _ _) => some c
  | _ => none

/-! Helper lemmas about path resolution. -/

theorem resolve_lstat_none {fs : FS} {p : Path} (h : lstat fs p = none) :
    resolve fs p = none := by
  show resolveAux (39 + 1) fs p = none
  simp [resolveAux, h]

theorem stat_lstat_none {fs : FS} {p : Path} (h : lstat fs p = none) :
    stat fs p = none := by
  simp [stat, resolve_lstat_none h]

theorem resolve_lstat_nonsymlink {fs : FS} {p : Path} {n : Node}
    (h : lstat fs p = some n) (hn : IsSymlink n = false) :
    resolve fs p = some p := by
  show resolveAux (39 + 1) fs p = some p
  cases n with
  | symlink t => simp [IsSymlink] at hn
  | file c s m => simp [resolveAux, h]
  | dir m => simp [resolveAux, h]
  | pipe m => simp [resolveAux, h]

theorem stat_lstat_nonsymlink {fs : FS} {p : Path} {n : Node}
    (h : lstat fs p = some n) (hn : IsSymlink n = false) :
    stat fs p = some n := by
  simp [stat, resolve_lstat_nonsymlink h hn, h]

theorem writeTarget_lstat_none {fs : FS} {p : Path} (h : lstat fs p = none) :
    writeTarget fs p = some p := by
  show writeTargetAux (39 + 1) fs p = some p
  simp [writeTargetAux, h]

theorem lstat_insertEntry {fs : FS} {p : Path} {n : Node} :
    lstat (insertEntry fs p n) p = some n := by
  simp [lstat, insertEntry, lookupEntry]

/-- C5: the claim says destinsrc appends a trailing separator to each of
the two absolute paths when missing, so that in particular
`DestInSrc(p, p)` is true for every path `p`. The code's second suffix
guard re-tests `src` instead of `dst`, so `dst` never receives its
separator and `destinsrc("/a", "/a")` returns false (`"/a"` does not have
prefix `"/a/"`), refuting the claim at that input. `filepath.Abs` is the
identity on the clean absolute path `"/a"`. -/
theorem c5_destinsrc_self_false : destinsrc id "/a" "/a" = false := by decide

/-- C6: whenever the source stats to a directory and the destination path
resolves to any existing node — of any type or contents — CopyTree fails
with the already-exists error kind and leaves the filesystem unchanged. -/
theorem c6_copytree_existing_dst (fuel : Nat) (opts : CopyTreeOptions)
    (fs : FS) (src dst : Path) (n m : Node) (hsrc : stat fs src = some n)
    (hdir : n.isDir = true) (hdst : stat fs dst = some m) :
    CopyTree (fuel + 1) opts fs src dst = .err (.alreadyExists dst) fs := by
  simp [CopyTree, hsrc, hdir, hdst]

def fsC6 : FS :=
  ⟨[([], .dir 493), (["s"], .dir 493), (["d"], .file [] 0 420)], true⟩

/-- Witness for C6 at a concrete filesystem whose destination is an
existing regular file. -/
theorem c6_copytree_existing_dst_witness :
    CopyTree 1 defaultCopyTreeOptions fsC6 ["s"] ["d"] =
      .err (.alreadyExists ["d"]) fsC6 :=
  c6_copytree_existing_dst 0 defaultCopyTreeOptions fsC6 ["s"] ["d"]
    (.dir 493) (.file [] 0 420) (by decide) (by decide) (by decide)

/-- C7: when the destination is an existing directory that is not
same-file with the source and something already exists at
realDst = dst/basename(src), Move fails with the already-exists error kind
and the filesystem is returned unchanged (no mutation happened). -/
theorem c7_move_existing_realdst (fuel : Nat) (fs : FS) (src dst : Path)
    (options : MoveOptions) (nd m : Node)
    (hdst : stat fs dst = some nd) (hdir : nd.isDir = true)
    (hsame : samefile fs src dst = false)
    (hreal : stat fs (dst ++ [baseName src]) = some m) :
    Move fuel fs src dst options = .err (.alreadyExists dst) fs := by
  simp [Move, isDirectory, hdst, hdir, hsame, hreal]

def fsC7 : FS :=
  ⟨[([], .dir 493), (["s"], .file [1] 1 420), (["d"], .dir 493),
    (["d", "s"], .file [2] 1 420)], true⟩

/-- Witness for C7: moving file /s into directory /d while /d/s exists. -/
theorem c7_move_existing_realdst_witness :
    Move 1 fsC7 ["s"] ["d"] defaultMoveOptions =
      .err (.alreadyExists ["d"]) fsC7 :=
  c7_move_existing_realdst 1 fsC7 ["s"] ["d"] defaultMoveOptions
    (.dir 493) (.file [2] 1 420) (by decide) (by decide) (by decide) (by decide)

/-- C10: when the source is a symlink whose target does not stat (so
`os.Stat(src)` fails and its error is discarded) and the destination
lstats to a non-symlink, CopyMode dereferences the nil FileInfo and
panics instead of returning an error — for either value of followSymlinks. -/
theorem c10_copymode_panics (fs : FS) (src dst : Path) (followSymlinks : Bool)
    (t : Path) (dn : Node)
    (hsrc : lstat fs src = some (.symlink t))
    (hdst : lstat fs dst = some dn) (hdn : IsSymlink dn = false)
    (hdangle : stat fs src = none) :
    CopyMode fs src dst followSymlinks = .panic := by
  simp [CopyMode, hsrc, hdst, hdn, hdangle]

def fsC10 : FS :=
  ⟨[([], .dir 493), (["s"], .symlink ["gone"]), (["d"], .file [1] 1 420)], true⟩

/-- Witness for C10: /s is a dangling symlink, /d an existing file. -/
theorem c10_copymode_panics_witness :
    CopyMode fsC10 ["s"] ["d"] false = .panic :=
  c10_copymode_panics fsC10 ["s"] ["d"] false ["gone"] (.file [1] 1 420)
    (by decide) (by decide) (by decide) (by decide)

def fsC1 : FS :=
  ⟨[([], .dir 493), (["s"], .dir 493), (["s", "l"], .symlink ["t"]),
    (["t"], .file [65] 1 420)], true⟩

/-- C1: the claim (and CopyTree's own Go doc comment) says that with the
Symlinks option false the destination entry receives the content of the
file the link points to. Evaluating the code at a tree whose /s/l is a
symlink to the existing file /t shows the destination /d/l instead becomes
a symbolic link pointing at the source symlink's own path /s/l: the loop
hands the copy function srcPath (not the resolved target) together with
followSymlinks=false, so CopyFile just re-links. No content is copied. -/
theorem c1_symlink_entry_not_copied :
    CopyTree 4 defaultCopyTreeOptions fsC1 ["s"] ["d"] =
      .ok () ⟨[(["d", "l"], .symlink ["s", "l"]), (["d"], .dir 493),
              ([], .dir 493), (["s"], .dir 493), (["s", "l"], .symlink ["t"]),
              (["t"], .file [65] 1 420)], true⟩ := by decide

def fsC2 : FS :=
  ⟨[([], .dir 493), (["s"], .dir 493), (["s", "l"], .symlink ["missing"])],
   true⟩

def c2IgnoreOpts : CopyTreeOptions :=
  { Symlinks := false, IgnoreDanglingSymlinks := true,
    CopyFunction := Copy, Ignore := none }

/-- C2: the claim (and CopyTree's Go doc comment) says a dangling symlink
with Symlinks=false and IgnoreDanglingSymlinks=false yields an error.
Evaluating the code on a tree whose only entry /s/l is a symlink to the
missing path /missing shows the call succeeds, creating a dangling symlink
/d/l -> /s/l at the destination (the copy function receives the symlink
path with followSymlinks=false and just re-links). The second half of the
claim does hold: with the flag true the call succeeds and the destination
tree omits the entry. -/
theorem c2_dangling_symlink_no_error :
    CopyTree 4 defaultCopyTreeOptions fsC2 ["s"] ["d"] =
      .ok () ⟨[(["d", "l"], .symlink ["s", "l"]), (["d"], .dir 493),
              ([], .dir 493), (["s"], .dir 493),
              (["s", "l"], .symlink ["missing"])], true⟩ ∧
    CopyTree 4 c2IgnoreOpts fsC2 ["s"] ["d"] =
      .ok () ⟨[(["d"], .dir 493), ([], .dir 493), (["s"], .dir 493),
              (["s", "l"], .symlink ["missing"])], true⟩ :=
  ⟨by decide, by decide⟩

def fsC3 : FS :=
  ⟨[([], .dir 493), (["s"], .dir 493), (["s", "f"], .file [66] 1 420),
    (["d"], .file [] 0 420)], true⟩

/-- C3: the claim says errors from the recursive tree copy or from the
removal in Move's directory fallback propagate to the caller. In the
fallback the Go code discards both results. At a state where /s is a
directory and /d an existing regular file, the rename fails (ENOTDIR), the
fallback's CopyTree fails with the already-exists kind (first conjunct) —
yet Move returns ("/d", nil): success, with the source subtree deleted by
RemoveAll and nothing copied (second conjunct). -/
theorem c3_move_discards_copytree_error :
    CopyTree 4 moveTreeOptions fsC3 ["s"] ["d"] =
      .err (.alreadyExists ["d"]) fsC3 ∧
    Move 4 fsC3 ["s"] ["d"] defaultMoveOptions =
      .ok ["d"] ⟨[([], .dir 493), (["d"], .file [] 0 420)], true⟩ :=
  ⟨by decide, by decide⟩

def c4opts : CopyTreeOptions :=
  { Symlinks := true, IgnoreDanglingSymlinks := false,
    CopyFunction := Copy, Ignore := none }

def fsC4 : FS :=
  ⟨[([], .dir 493), (["s"], .dir 493), (["s", "a"], .symlink ["t"]),
    (["s", "b"], .file [67] 1 420), (["t"], .file [68] 1 420)], false⟩

/-- The filesystem state at the moment CopyTree's loop reaches entry "a":
the destination directory /d has just been created by MkdirAll. -/
def fsC4mid : FS := ⟨(["d"], .dir 493) :: fsC4.entries, false⟩

/-- C4 counterexample: on a destination filesystem without symlink support
(symlink creation fails, as CopyTree's doc itself contemplates), with
Symlinks=true, re-creating the symlink entry "a" errors (first conjunct) —
yet CopyTree does not return that error: it succeeds, the later entry "b"
is still processed and copied, and /d/a is silently missing. This refutes
the claim that every error from processing a child entry, including
recreating a symlink, aborts the call immediately. -/
theorem c4_symlink_error_not_fatal :
    (symlinkCreate fsC4mid ["t"] ["d", "a"]).isOk = false ∧
    CopyTree 4 c4opts fsC4 ["s"] ["d"] =
      .ok () ⟨[(["d", "b"], .file [67] 1 420), (["d"], .dir 493),
              ([], .dir 493), (["s"], .dir 493), (["s", "a"], .symlink ["t"]),
              (["s", "b"], .file [67] 1 420), (["t"], .file [68] 1 420)],
             false⟩ :=
  ⟨by decide, by decide⟩

/-- C4 amended: during CopyTree's per-entry loop, an error returned by the
per-entry body — lstat, readlink, recursing into a subdirectory, or the
copy function — causes the loop to return that error immediately, with no
further entries processed (first conjunct: the result does not depend on
the remaining names). The exception the counterexample forces: an error
from re-creating a symlink when the Symlinks option is true is discarded
and the entry handler reports success (second conjunct). -/
theorem c4_failfast_amended :
    (∀ (handle : FS → String → Outcome Unit) (ignoredNames : List String)
       (fs fs' : FS) (name : String) (rest : List String) (e : Err),
       stringInSlice name ignoredNames = false →
       handle fs name = .err e fs' →
       copyTreeEntries handle ignoredNames fs (name :: rest) = .err e fs') ∧
    (∀ (recurse : FS → Path → Path → Outcome Unit) (opts : CopyTreeOptions)
       (fs fs' : FS) (src dst : Path) (name : String) (linkTo : Path) (e : Err),
       opts.Symlinks = true →
       lstat fs (src ++ [name]) = some (.symlink linkTo) →
       symlinkCreate fs linkTo (dst ++ [name]) = .err e fs' →
       copyTreeEntry recurse opts src dst fs name = .ok () fs') := by
  constructor
  · intro handle ignoredNames fs fs' name rest e h1 h2
    simp [copyTreeEntries, h1, h2]
  · intro recurse opts fs fs' src dst name linkTo e hSym hL hCreate
    simp [copyTreeEntry, hL, IsSymlink, readlink, hSym, hCreate]

/-- C8: in CopyFile's content-copy path (source lstats to a regular file,
destination fresh with an existing parent directory), the call streams the
source's bytes into the destination and then returns an error iff the
number of bytes streamed differs from the source's pre-copy stat size;
in either case the destination was written, and on the equal-size path the
call succeeds with the destination reading back exactly the source's full
content (second conjunct). -/
theorem c8_copyfile_size_check (fs : FS) (src dst : Path)
    (followSymlinks : Bool) (content : List Nat) (sz m : Nat)
    (hsame : samefile fs src dst = false)
    (hsrc : lstat fs src = some (.file content sz m))
    (hdst : lstat fs dst = none)
    (hpar : parentIsDir fs dst = true) :
    CopyFile fs src dst followSymlinks =
      (if content.length = sz then
        .ok () (insertEntry fs dst (.file content content.length 438))
      else
        .err (.sizeMismatch src content.length sz)
          (insertEntry fs dst (.file content content.length 438))) ∧
    readFile? (insertEntry fs dst (.file content content.length 438)) dst =
      some content := by
  constructor
  · simp [CopyFile, hsame, hsrc, specialfile, stat_lstat_none hdst,
          copyFileLink, IsSymlink, copyFileData, readFileContent,
          stat_lstat_nonsymlink hsrc (by simp [IsSymlink]),
          writeFile, writeTarget_lstat_none hdst, hdst, hpar, Node.size]
  · simp [readFile?,
          stat_lstat_nonsymlink
            (@lstat_insertEntry fs dst (.file content content.length 438))
            (by simp [IsSymlink])]

def fsC8 : FS := ⟨[([], .dir 493), (["a"], .file [1, 2] 2 420)], true⟩

/-- Witness for C8 on the equal-size path: /a holds two bytes and stats
size 2; the copy succeeds and /b reads back the same bytes. -/
theorem c8_copyfile_size_check_witness :
    CopyFile fsC8 ["a"] ["b"] false =
      .ok () (insertEntry fsC8 ["b"] (.file [1, 2] 2 438)) ∧
    readFile? (insertEntry fsC8 ["b"] (.file [1, 2] 2 438)) ["b"] =
      some [1, 2] :=
  c8_copyfile_size_check fsC8 ["a"] ["b"] false [1, 2] 2 420
    (by decide) (by decide) (by decide) (by decide)

/-- C9: when the source lstats to a symlink and followSymlinks is false
(same-file and special-file checks passing, destination fresh on a
filesystem supporting symlinks), CopyFile creates a symbolic link at dst
whose stored target is the original src path argument itself — not the
link's resolved target — adds nothing else to the filesystem (no content
is copied), and returns success. -/
theorem c9_copyfile_symlink_nofollow (fs : FS) (src dst t : Path)
    (hsame : samefile fs src dst = false)
    (hsrc : lstat fs src = some (.symlink t))
    (hdst : lstat fs dst = none)
    (hsup : fs.symlinksSupported = true)
    (hpar : parentIsDir fs dst = true) :
    CopyFile fs src dst false = .ok () (insertEntry fs dst (.symlink src)) := by
  simp [CopyFile, hsame, hsrc, specialfile, stat_lstat_none hdst,
        copyFileLink, IsSymlink, symlinkCreate, hsup, hdst, hpar]

def fsC9 : FS :=
  ⟨[([], .dir 493), (["s"], .symlink ["t"]), (["t"], .file [9] 1 420)], true⟩

/-- Witness for C9: /s is a symlink to the regular file /t; the copy
produces /d as a symlink whose target is /s, not /t. -/
theorem c9_copyfile_symlink_nofollow_witness :
    CopyFile fsC9 ["s"] ["d"] false =
      .ok () (insertEntry fsC9 ["d"] (.symlink ["s"])) :=
  c9_copyfile_symlink_nofollow fsC9 ["s"] ["d"] ["t"]
    (by decide) (by decide) (by decide) (by decide) (by decide)

def fsC4w : FS := ⟨[(["s", "a"], .symlink ["t"])], false⟩

/-- Witness for the amended C4: a handler error aborts the loop at once,
and a failing symlink re-creation is swallowed by the entry body. -/
theorem c4_failfast_amended_witness :
    copyTreeEntries (fun fs _ => .err (.ioError []) fs) [] fsC4w ["x", "y"] =
      .err (.ioError []) fsC4w ∧
    copyTreeEntry (fun fs _ _ => .ok () fs) c4opts ["s"] ["d"] fsC4w "a" =
      .ok () fsC4w :=
  ⟨c4_failfast_amended.1 (fun fs _ => .err (.ioError []) fs) [] fsC4w fsC4w
     "x" ["y"] (.ioError []) (by decide) rfl,
   c4_failfast_amended.2 (fun fs _ _ => .ok () fs) c4opts fsC4w fsC4w
     ["s"] ["d"] "a" ["t"] (.ioError ["d", "a"]) rfl (by decide) (by decide)⟩

end GoShutil

